import Mathlib

/-!
Verification of the `homebridge-remote-ssh` switch adapter
(`src/src/accessory.ts`, class `SshAccessory`).

The embedding is a shallow translation of the accessory's observable
behaviour: its configuration handling (constructor), the pure match
predicate `matchesString`, the per-event behaviour of the `setState`
and `getState` stream handlers, and the service wiring in
`getServices`.  JavaScript truthiness and the `||` defaulting idiom
are modelled explicitly, since several claims hinge on them.
-/

namespace RemoteSSH

/-- JavaScript primitive values as they occur in this plugin's
configuration object (the `exact_match` key may arrive as a boolean,
a string, a number, or be absent). -/
inductive JSVal where
  | undef
  | vBool (b : Bool)
  | vStr (s : String)
  | vNum (n : Int)
deriving Repr, DecidableEq

/-- JavaScript truthiness of a primitive value. -/
def JSVal.truthy : JSVal → Bool
  | .undef => false
  | .vBool b => b
  | .vStr s => s ≠ ""
  | .vNum n => n ≠ 0

/-- JS `a || b` for a value `a` and default `b`. -/
def jsOrVal (a b : JSVal) : JSVal := if a.truthy then a else b

/-- JS `a || b` where `a` is a string-or-undefined config entry and `b` a
string default: an absent or empty (falsy) string yields the default. -/
def jsOrStr : Option String → String → String
  | some s, d => if s = "" then d else s
  | none, d => d

/-- JS whitespace recognised by `String.prototype.trim` (the ASCII part,
which is all that the configuration values and chunks here contain). -/
def jsIsSpace (c : Char) : Bool :=
  c == ' ' || c == '\t' || c == '\n' || c == '\r' || c == '\x0b' || c == '\x0c'

/-- JS `String.prototype.trim`: drop leading and trailing whitespace. -/
def jsTrim (s : String) : String :=
  String.mk (((s.data.dropWhile jsIsSpace).reverse.dropWhile jsIsSpace).reverse)

/-- JS `String.prototype.toLowerCase` (ASCII case mapping). -/
def jsToLower (s : String) : String :=
  String.mk (s.data.map Char.toLower)

/-- Does the pattern `p` occur at the start of `s`? (character lists) -/
def strStarts (s p : List Char) : Bool :=
  match p, s with
  | [], _ => true
  | _ :: _, [] => false
  | d :: ds, c :: cs => c == d && strStarts cs ds

/-- Does the pattern `p` occur anywhere in `s`? (character lists) -/
def strFindSub : List Char → List Char → Bool
  | [], p => strStarts [] p
  | c :: cs, p => strStarts (c :: cs) p || strFindSub cs p

/-- JS `s.indexOf(sub) > -1`: substring containment. -/
def strIncludes (s sub : String) : Bool := strFindSub s.data sub.data

/-- The raw configuration mapping handed to the constructor
(`config["name"]`, `config["on"]`, `config["off"]`, `config["state"]`,
`config["on_value"]`, `config["exact_match"]`).  The three optional
keys are the ones whose absence or falsiness the code tests. -/
structure RawConfig where
  name : String
  onCmd : String
  offCmd : String
  state : Option String
  on_value : Option String
  exact_match : JSVal
deriving Repr, DecidableEq

/-- The fields of `SshAccessory` relevant to its observable behaviour,
as stored by the constructor. -/
structure SshAccessory where
  powerOn : Bool
  name : String
  onCommand : String
  offCommand : String
  stateCommand : Option String
  onValue : String
  exactMatch : JSVal
deriving Repr, DecidableEq

/-- The constructor of `SshAccessory` (src/src/accessory.ts):
`powerOn` is initialised `false`; `onValue` is
`(config["on_value"] || "playing").trim().toLowerCase()`;
`exactMatch` is `config["exact_match"] || true`. -/
def mkSshAccessory (config : RawConfig) : SshAccessory :=
  { powerOn := false
    name := config.name
    onCommand := config.onCmd
    offCommand := config.offCmd
    stateCommand := config.state
    onValue := jsToLower (jsTrim (jsOrStr config.on_value "playing"))
    exactMatch := jsOrVal config.exact_match (.vBool true) }

/-- `SshAccessory.matchesString` (src/src/accessory.ts lines 62-68):
`if (this.exactMatch) return match === this.onValue;
else return match.indexOf(this.onValue) > -1`. -/
def SshAccessory.matchesString (acc : SshAccessory) (m : String) : Bool :=
  if acc.exactMatch.truthy then m == acc.onValue
  else strIncludes m acc.onValue

/-- Events a transport stream can emit (`remote-ssh-exec`).  An `error`
event carries the error the transport passed, `none` modelling a
null/undefined (falsy) error object. -/
inductive StreamEvent where
  | error (err : Option String)
  | data (chunk : String)
  | finish
  | close
  | ended
deriving Repr, DecidableEq

/-- Dynamic property lookup `accessory[prop]` as used by `setState`
(`var prop = state + "Command"; var command = accessory[prop]`). -/
def SshAccessory.commandProp (acc : SshAccessory) (prop : String) : Option String :=
  if prop = "onCommand" then some acc.onCommand
  else if prop = "offCommand" then some acc.offCommand
  else none

/-- The command string `setState` hands to the transport:
`accessory[(powerOn ? "on" : "off") + "Command"]`. -/
def SshAccessory.setStateCommand (acc : SshAccessory) (powerOn : Bool) : Option String :=
  acc.commandProp ((if powerOn then "on" else "off") ++ "Command")

/-- What the `setState` stream handlers deliver to the hub callback for
one event (src/src/accessory.ts lines 70-89).  The outer `Option` says
whether a handler fires the callback at all; the inner `Option String`
is the error argument (`none` = `callback(undefined)`, success).
On `error`: `callback(err || new Error("Error setting " + name + " to " + state))`.
On `finish`: `callback(undefined)`.  No other events are handled. -/
def SshAccessory.setStateOnEvent (acc : SshAccessory) (powerOn : Bool)
    (ev : StreamEvent) : Option (Option String) :=
  match ev with
  | .error err =>
      some (some (err.getD
        ("Error setting " ++ acc.name ++ " to " ++ (if powerOn then "on" else "off"))))
  | .finish => some none
  | _ => none

/-- Value delivered to the hub's get callback: either an error argument
or `callback(undefined, value)`. -/
inductive GetCallbackArg where
  | failure (err : String)
  | success (value : Bool)
deriving Repr, DecidableEq

/-- One event of the `getState` stream (src/src/accessory.ts lines 92-117).
On a `data` event the source first evaluates
`data.toString().match(accessory.matchesString)`: JavaScript coerces the
function to a RegExp built from its engine-rendered source text and tests
the chunk against it.  That pattern is not determined by the TypeScript
source, so the truthiness of this test enters the embedding as the input
`regexHit`; the branch structure below follows the source.  When the test
is truthy the handler replies `callback(undefined, accessory.powerOn)`;
otherwise it replies `callback(undefined, accessory.matchesString(state))`
with `state = data.toString("utf-8").trim().toLowerCase()`.
On `error`: `callback(err || new Error("Error getting " + name + " state"))`.
The `finish`/`close`/`end` handlers only log. -/
def SshAccessory.getStateOnEvent (acc : SshAccessory) (regexHit : Bool)
    (ev : StreamEvent) : Option GetCallbackArg :=
  match ev with
  | .error err =>
      some (.failure (err.getD ("Error getting " ++ acc.name ++ " state")))
  | .data chunk =>
      if regexHit then some (.success acc.powerOn)
      else some (.success (acc.matchesString (jsToLower (jsTrim chunk))))
  | _ => none

/-- Which handlers `getServices` wires onto the switch characteristic. -/
structure SwitchHandlers where
  hasSetHandler : Bool
  hasGetHandler : Bool
deriving Repr, DecidableEq

/-- The service wiring of `getServices` (src/src/accessory.ts lines 152-167):
the information service carries three constant characteristics, the SET
handler is always attached, and the GET handler is attached under
`if (this.stateCommand)` — JS truthiness of the stored string. -/
structure ServicesResult where
  manufacturer : String
  model : String
  serialNumber : String
  switchHandlers : SwitchHandlers
deriving Repr, DecidableEq

/-- JS truthiness of a string-or-undefined field. -/
def optStrTruthy : Option String → Bool
  | some s => s ≠ ""
  | none => false

/-- `SshAccessory.getServices`, reduced to its observable wiring. -/
def SshAccessory.getServices (acc : SshAccessory) : ServicesResult :=
  { manufacturer := "SSH Manufacturer"
    model := "SSH Model"
    serialNumber := "SSH Serial Number"
    switchHandlers :=
      { hasSetHandler := true
        hasGetHandler := optStrTruthy acc.stateCommand } }

/-- The operations the hub can invoke on one accessory, each paired with
the transport events it may observe. -/
inductive Op where
  | setPower (p : Bool) (ev : StreamEvent)
  | getPower (regexHit : Bool) (ev : StreamEvent)
  | identify
  | getServices
deriving Repr, DecidableEq

/-- Field state left in the accessory after each operation: no handler in
the source assigns to any field (in particular none writes `powerOn`),
so every operation leaves all fields as the constructor stored them. -/
def applyOp (acc : SshAccessory) : Op → SshAccessory
  | .setPower _ _ => acc
  | .getPower _ _ => acc
  | .identify => acc
  | .getServices => acc

/-- A concrete configuration used by the concrete-input theorems:
`on_value` and `exact_match` absent. -/
def raw0 : RawConfig :=
  { name := "Lamp", onCmd := "relay on", offCmd := "relay off"
    state := some "relay status", on_value := none, exact_match := .undef }

/-- A concrete configuration supplying `exact_match` as the boolean `false`. -/
def rawF : RawConfig :=
  { name := "Lamp", onCmd := "relay on", offCmd := "relay off"
    state := some "relay status", on_value := none, exact_match := .vBool false }

theorem strStarts_append (p r : List Char) : strStarts (p ++ r) p = true := by
  induction p with
  | nil => simp [strStarts]
  | cons c cs ih => simp [strStarts, ih]

theorem strStarts_self (p : List Char) : strStarts p p = true := by
  have h := strStarts_append p []
  simpa using h

theorem strFindSub_of_starts (s p : List Char) (h : strStarts s p = true) :
    strFindSub s p = true := by
  cases s with
  | nil => simpa [strFindSub] using h
  | cons c cs => simp [strFindSub, h]

theorem strFindSub_append_left (x s p : List Char) (h : strFindSub s p = true) :
    strFindSub (x ++ s) p = true := by
  induction x with
  | nil => simpa using h
  | cons c cs ih => simp [strFindSub, ih]

/-- A string occurs in `a ++ b ++ c` as the middle part. -/
theorem strIncludes_three (a b c : String) : strIncludes (a ++ b ++ c) b = true := by
  simp only [strIncludes, String.data_append, List.append_assoc]
  exact strFindSub_append_left _ _ _
    (strFindSub_of_starts _ _ (strStarts_append _ _))

/-- A string occurs in `a ++ b ++ c ++ d` as the second part. -/
theorem strIncludes_four (a b c d : String) : strIncludes (a ++ b ++ c ++ d) b = true := by
  simp only [strIncludes, String.data_append, List.append_assoc]
  exact strFindSub_append_left _ _ _
    (strFindSub_of_starts _ _ (strStarts_append _ _))

/-- A string occurs in `a ++ b` as the final part. -/
theorem strIncludes_right (a b : String) : strIncludes (a ++ b) b = true := by
  simp only [strIncludes, String.data_append]
  exact strFindSub_append_left _ _ _
    (strFindSub_of_starts _ _ (strStarts_self _))

/-- The constructor's `config["exact_match"] || true` stores a truthy value
for every raw configuration: a truthy input is kept, a falsy one is
replaced by `true`. -/
theorem exactMatch_always_truthy (raw : RawConfig) :
    (mkSshAccessory raw).exactMatch.truthy = true := by
  simp only [mkSshAccessory, jsOrVal]
  split
  · assumption
  · rfl

/-- Consequently `matchesString` always evaluates its equality branch. -/
theorem matchesString_from_raw (raw : RawConfig) (s : String) :
    (mkSshAccessory raw).matchesString s = (s == (mkSshAccessory raw).onValue) := by
  unfold SshAccessory.matchesString
  rw [exactMatch_always_truthy]
  simp

/-- C1: the claim says that with `exact_match` supplied as `false`,
`matchesString(s)` is true iff `onValue` is a substring of the normalized
candidate.  The code evaluated at the failing input: `exact_match := false`
is stored as `true` by `config["exact_match"] || true`, so for the default
`onValue = "playing"` and candidate `"now playing music"` (already trimmed
and lower-cased), the substring relation holds yet `matchesString` returns
`false`. -/
theorem c1_substring_branch_dead_on_false_config :
    (mkSshAccessory rawF).exactMatch = .vBool true ∧
    strIncludes "now playing music" (mkSshAccessory rawF).onValue = true ∧
    (mkSshAccessory rawF).matchesString "now playing music" = false := by
  decide

/-- C3: `setState(true)` hands exactly the configured `on` command to the
transport, `setState(false)` exactly the `off` command, every set
operation sends one of the two, and the `finish` event answers the
callback with no error. -/
theorem c3_set_commands_exact_and_finish_ok (raw : RawConfig)
    (acc : SshAccessory) (p : Bool) :
    (mkSshAccessory raw).setStateCommand true = some raw.onCmd ∧
    (mkSshAccessory raw).setStateCommand false = some raw.offCmd ∧
    (acc.setStateCommand p = some acc.onCommand ∨
      acc.setStateCommand p = some acc.offCommand) ∧
    acc.setStateOnEvent p .finish = some none := by
  refine ⟨rfl, rfl, ?_, rfl⟩
  cases p
  · exact Or.inr rfl
  · exact Or.inl rfl

/-- C4: on a transport `error` event the callback receives the transport's
error unmodified when it is non-null; otherwise it receives a synthesized
message that contains the accessory name (and, for `setState`, the target
state string `"on"`/`"off"`). -/
theorem c4_error_event_callback (acc : SshAccessory) (p rh : Bool) (e : String) :
    acc.setStateOnEvent p (.error (some e)) = some (some e) ∧
    acc.getStateOnEvent rh (.error (some e)) = some (.failure e) ∧
    (∃ msg, acc.setStateOnEvent p (.error none) = some (some msg) ∧
      strIncludes msg acc.name = true ∧
      strIncludes msg (if p then "on" else "off") = true) ∧
    (∃ msg, acc.getStateOnEvent rh (.error none) = some (.failure msg) ∧
      strIncludes msg acc.name = true) := by
  refine ⟨rfl, rfl, ⟨_, rfl, ?_, ?_⟩, ⟨_, rfl, ?_⟩⟩
  · exact strIncludes_four "Error setting " acc.name " to " _
  · exact strIncludes_right ("Error setting " ++ acc.name ++ " to ") _
  · exact strIncludes_three "Error getting " acc.name " state"

/-- C5, counterexample to the claim as stated: a configuration whose
`state` key is present but holds the empty string does not get the GET
handler attached, so "attached exactly when stateCommand is present"
fails. -/
theorem c5_counterexample_empty_state_present :
    ({ raw0 with state := some "" } : RawConfig).state.isSome = true ∧
    (mkSshAccessory { raw0 with state := some "" }).getServices.switchHandlers.hasGetHandler
      = false := by
  decide

/-- C5, amended: the SET handler is always attached, and the GET handler
is attached exactly when `stateCommand` is present and non-empty
(JS-truthy); in particular an absent `stateCommand` never registers the
get capability. -/
theorem c5_get_handler_iff_truthy_state (raw : RawConfig) :
    ((mkSshAccessory raw).getServices.switchHandlers.hasGetHandler = true ↔
      ∃ s, raw.state = some s ∧ s ≠ "") ∧
    (mkSshAccessory raw).getServices.switchHandlers.hasSetHandler = true := by
  refine ⟨?_, rfl⟩
  cases h : raw.state with
  | none => simp [mkSshAccessory, SshAccessory.getServices, optStrTruthy, h]
  | some s => simp [mkSshAccessory, SshAccessory.getServices, optStrTruthy, h]

/-- C6, counterexample to the claim as stated: with `on_value` supplied as
the empty string, the stored `onValue` is `"playing"`, not the trimmed and
lower-cased configured value (which would be `""`). -/
theorem c6_counterexample_empty_on_value :
    ¬ ((mkSshAccessory { raw0 with on_value := some "" }).onValue
        = jsToLower (jsTrim "")) := by
  decide

/-- C6, amended: for a non-empty configured `on_value` the stored
`onValue` is the configured value trimmed and lower-cased; when
`on_value` is absent or the empty string the stored `onValue` is
`"playing"`. -/
theorem c6_on_value_normalized (raw : RawConfig) (s : String) (h : s ≠ "") :
    (mkSshAccessory { raw with on_value := some s }).onValue = jsToLower (jsTrim s) ∧
    (mkSshAccessory { raw with on_value := none }).onValue = "playing" ∧
    (mkSshAccessory { raw with on_value := some "" }).onValue = "playing" := by
  refine ⟨?_, rfl, rfl⟩
  simp [mkSshAccessory, jsOrStr, h]

/-- Witness for C6's theorem at `on_value = "  ON  "`. -/
theorem c6_on_value_normalized_witness :
    ("  ON  " ≠ "") ∧
    (mkSshAccessory { raw0 with on_value := some "  ON  " }).onValue
      = jsToLower (jsTrim "  ON  ") :=
  ⟨by decide, (c6_on_value_normalized raw0 "  ON  " (by decide)).1⟩

/-- C7, counterexample to the claim as stated: with `exact_match` absent
(stored `true`) and `onValue = "playing"`, the candidate `"PLAYING"`
normalizes to `"playing"`, so the claimed biconditional would make
`matchesString "PLAYING"` true — but the code compares the candidate as
given and returns `false`. -/
theorem c7_counterexample_unnormalized_candidate :
    ¬ ((mkSshAccessory raw0).matchesString "PLAYING" = true ↔
        jsToLower (jsTrim "PLAYING") = (mkSshAccessory raw0).onValue) := by
  decide

/-- C7, amended: for every configuration with `exact_match` true or
absent, `matchesString(s)` is true iff `s` equals the stored `onValue`
exactly — the candidate is compared as given; callers normalize it before
the call. -/
theorem c7_exact_match_is_equality (raw : RawConfig) (s : String)
    (h : raw.exact_match = .vBool true ∨ raw.exact_match = .undef) :
    (mkSshAccessory raw).matchesString s = true ↔ s = (mkSshAccessory raw).onValue := by
  rw [matchesString_from_raw]
  exact beq_iff_eq

/-- Witness for C7's theorem at the default configuration and candidate
`"playing"`. -/
theorem c7_exact_match_is_equality_witness :
    (mkSshAccessory raw0).matchesString "playing" = true ↔
      "playing" = (mkSshAccessory raw0).onValue :=
  c7_exact_match_is_equality raw0 "playing" (Or.inr rfl)

/-- C8: however `exact_match` is supplied — including the boolean `false`
and every other falsy value — the stored `exactMatch` is truthy, so
`matchesString` always takes the exact-equality branch and the substring
branch is unreachable. -/
theorem c8_exactMatch_truthy_substring_unreachable (raw : RawConfig) (s : String) :
    (mkSshAccessory raw).exactMatch.truthy = true ∧
    (mkSshAccessory raw).matchesString s = (s == (mkSshAccessory raw).onValue) :=
  ⟨exactMatch_always_truthy raw, matchesString_from_raw raw s⟩

/-- C9: `powerOn` is initialized `false` and no operation writes it, so
after any sequence of operations it is still `false`; in particular the
getState data handler's `regexHit` branch always delivers `false` to the
callback. -/
theorem c9_powerOn_always_false (raw : RawConfig) (ops : List Op) (chunk : String) :
    (ops.foldl applyOp (mkSshAccessory raw)).powerOn = false ∧
    (ops.foldl applyOp (mkSshAccessory raw)).getStateOnEvent true (.data chunk)
      = some (.success false) := by
  have hfold : ∀ (acc : SshAccessory), ops.foldl applyOp acc = acc := by
    intro acc
    induction ops generalizing acc with
    | nil => rfl
    | cons o os ih =>
        have ho : applyOp acc o = acc := by cases o <;> rfl
        simp [List.foldl, ho, ih]
  rw [hfold]
  exact ⟨rfl, rfl⟩

/-- C10: empty-string configuration values behave like absent ones at the
public interface — `on_value = ""` stores `onValue = "playing"`, and
`state = ""` yields the same service wiring as an absent `state`, with no
GET handler attached. -/
theorem c10_empty_string_equals_absent (raw : RawConfig) :
    (mkSshAccessory { raw with on_value := some "" }).onValue
      = (mkSshAccessory { raw with on_value := none }).onValue ∧
    (mkSshAccessory { raw with on_value := some "" }).onValue = "playing" ∧
    (mkSshAccessory { raw with state := some "" }).getServices
      = (mkSshAccessory { raw with state := none }).getServices ∧
    (mkSshAccessory { raw with state := some "" }).getServices.switchHandlers.hasGetHandler
      = false :=
  ⟨rfl, rfl, rfl, rfl⟩

end RemoteSSH
